import Mathlib

/-
Verification of the generic Object/Validator/Factory/Persister/Controller layer
of the paperless-registration repository (src/models/Base.py,
src/controllers/CRUD.py, with the concrete models src/models/User.py and
src/models/SponsoringOrganizations.py).

Python dicts are modelled as insertion-ordered association lists with unique
keys; dynamic Python values as a small closed universe covering the value
shapes the repository stores (strings, integers, booleans, lists and dicts of
scalars).  Exceptions are modelled with Except.  Store traffic is recorded as
an explicit list of StoreOp events so that read/write behaviour is provable.
-/

namespace Paperless

/-- Dynamic values held in object attributes and dicts.  The repository only
ever stores strings, numbers, and flat collections, so collection elements are
modelled as scalars. -/
inductive Value where
  | VStr (s : String)
  | VInt (n : Int)
  | VBool (b : Bool)
  | VList (elems : List String)
  | VMap (entries : List (String × String))
deriving DecidableEq

/-- Python truthiness of a Value: empty string, zero, false and empty
collections are falsy, everything else is truthy. -/
def truthy : Value → Bool
  | .VStr s => s != ""
  | .VInt n => n != 0
  | .VBool b => b
  | .VList l => l != []
  | .VMap m => m != []

/-- A Python dict: insertion-ordered key/value pairs, keys unique. -/
abbrev Dict := List (String × Value)

/-- Dict lookup (`d[k]`): the value of the first pair carrying key k. -/
def lookupV (d : Dict) (k : String) : Option Value :=
  match d.find? (fun kv => kv.1 == k) with
  | some kv => some kv.2
  | none => none

/-- Dict key membership (`k in d`). -/
def hasKey (d : Dict) (k : String) : Bool :=
  (lookupV d k).isSome

/-- The keys of a dict, in order. -/
def dictKeys (d : Dict) : List String :=
  d.map (fun kv => kv.1)

/-- Dict key deletion (`del d[k]`); dict keys are unique, so removing every
pair with key k is the same as removing the one. -/
def delKey (d : Dict) (k : String) : Dict :=
  d.filter (fun kv => kv.1 != k)

/-- The exception kinds the repository raises.  ClientErrorException,
InvalidObjectException, RecordNotFoundException and MultipleMatchException are
the dedicated classes; genericError stands for a plain Exception;
unboundLocal is the Python UnboundLocalError raised when a local variable is
read before any assignment. -/
inductive PyErr where
  | clientError (msg : String)
  | invalidObject (msg : String)
  | recordNotFound (msg : String)
  | multipleMatch (msg : String)
  | genericError (msg : String)
  | unboundLocal
deriving DecidableEq

/- ---------------------------------------------------------------------
Object (src/models/Base.py, class Object)
--------------------------------------------------------------------- -/

/-- The instance-attribute dict of an Object (`self.__dict__`): raw attribute
names, in definition order, with their values. -/
abbrev Obj := List (String × Value)

/-- The test `key[0] == '_'` on the character sequence of the name (an empty
name has no key[0]; attribute names are never empty). -/
def leadUnderscore (k : String) : Bool :=
  match k.data with
  | c :: _ => c = '_'
  | [] => false

/-- The name translation of Object.to_dict and Object.fields: an attribute
name with a leading underscore is exposed under the name without it
(`key[1:]`), any other name is exposed unchanged. -/
def stripU (k : String) : String :=
  match k.data with
  | c :: rest => if c = '_' then String.mk rest else k
  | [] => k

/-- Object.to_dict: every attribute under its exposed name. -/
def to_dict (obj : Obj) : Dict :=
  obj.map (fun kv => (stripU kv.1, kv.2))

/-- Object.fields: the exposed attribute names. -/
def fields (obj : Obj) : List String :=
  obj.map (fun kv => stripU kv.1)

/-- Object.set_from_data: for each attribute already on the object whose raw
key occurs in data, overwrite its value with the data value; keys of data
that are not attributes are ignored. -/
def set_from_data (obj : Obj) (data : Dict) : Obj :=
  obj.map (fun kv =>
    match lookupV data kv.1 with
    | some v => (kv.1, v)
    | none => kv)

/-- Whether a dict has no key beginning with an underscore; true of every
concrete model class in the repository, whose attributes are plain names. -/
def noUnderscoreKeys (d : Dict) : Bool :=
  (dictKeys d).all (fun s => !(leadUnderscore s))

/- ---------------------------------------------------------------------
Validator (src/models/Base.py, class Validator)
--------------------------------------------------------------------- -/

def FIELD_REQUIRED : String := "required"

def FIELD_OPTIONAL : String := "optional"

/-- The field-requirement table returned by get_field_requirements. -/
abbrev FieldReqs := List (String × String)

/-- The error message appended for a missing required field. -/
def missingMsg (k : String) : String :=
  "Missing required field \"" ++ k ++ "\""

/-- Negation of the missing test `key not in d or not d[key]`: the key is
present and its value is truthy. -/
def presentTruthy (d : Dict) (k : String) : Bool :=
  match lookupV d k with
  | some v => truthy v
  | none => false

/-- Validator._validate_required_fields, run against a to_dict image: walks
the field requirements in order and collects one message per required field
that is absent or falsy, together with the validity flag. -/
def validateRequiredFields : FieldReqs → Dict → Bool × List String
  | [], _ => (true, [])
  | (key, value) :: rest, d =>
    let r := validateRequiredFields rest d
    if value == FIELD_REQUIRED then
      if presentTruthy d key then r
      else (false, missingMsg key :: r.2)
    else r

/-- Validator.get_validation_errors: required-field errors followed by the
subclass _validate errors.  Every validator in the repository keeps the base
default _validate, which reports no errors. -/
def get_validation_errors (reqs : FieldReqs) (d : Dict) : List String :=
  (validateRequiredFields reqs d).2 ++ ([] : List String)

/-- Validator.validate: raises InvalidObjectException carrying errors[0] when
any error was collected. -/
def validate (reqs : FieldReqs) (d : Dict) : Except PyErr Unit :=
  match get_validation_errors reqs d with
  | [] => .ok ()
  | e :: _ => .error (.invalidObject e)

/- ---------------------------------------------------------------------
Factory (src/models/Base.py, class Factory)
--------------------------------------------------------------------- -/

/-- The message of the Exception raised by Factory.construct on a key that is
not a declared field. -/
def unknownFieldMsg (klass k : String) : String :=
  "Unknown \"" ++ klass ++ "\" field \"" ++ k ++ "\""

/-- Python setattr on a plain object: update the attribute if present, else
append a new one.  On the concrete model classes setattr cannot raise
AttributeError, so the try/except in Factory.construct never fires. -/
def setAttr (obj : Obj) (k : String) (v : Value) : Obj :=
  if (dictKeys obj).contains k then
    obj.map (fun kv => if kv.1 == k then (k, v) else kv)
  else obj ++ [(k, v)]

/-- The loop of Factory.construct: each data key naming a declared field is
assigned; any other key raises when invalid_field_exceptions is set and is
skipped otherwise. -/
def constructLoop (klass : String) (ife : Bool) : Obj → Dict → Except PyErr Obj
  | obj, [] => .ok obj
  | obj, (key, v) :: rest =>
    if (fields obj).contains key then
      constructLoop klass ife (setAttr obj key v) rest
    else if ife then .error (.genericError (unknownFieldMsg klass key))
    else constructLoop klass ife obj rest

/-- Factory.construct: build a fresh instance of the concrete class (its
__init__ attribute dict is defaultObj) and assign the data into it. -/
def construct (klass : String) (defaultObj : Obj) (data : Dict) (ife : Bool) :
    Except PyErr Obj :=
  constructLoop klass ife defaultObj data

/-- Store traffic: table.get_item reads, table.put_item writes. -/
inductive StoreOp where
  | readKey (key : Dict)
  | writeItem (item : Dict)
deriving DecidableEq

/-- Persister.get: table.get_item(Key=key) against a backing table modelled
as a function from key dict to optional stored item; a missing Item member
raises RecordNotFoundException.  The second component is the store traffic. -/
def persisterGet (table : Dict → Option Dict) (key : Dict) :
    Except PyErr Dict × List StoreOp :=
  (match table key with
   | some item => .ok item
   | none => .error (.recordNotFound "Record not found"),
   [.readKey key])

/-- A persister handle, identified by its table binding. -/
structure Persister where
  table : String
deriving DecidableEq

/-- Base.Factory.get_persister: the static stub, which raises.  The concrete
factories of the repository define the hook under the name _get_persister
instead and never override get_persister, so every call resolves here. -/
def factoryGetPersister : Except PyErr Persister :=
  .error (.genericError "SYSTEM ERROR: persister not defined.")

/-- User.Factory._get_persister, the subclass hook: it would build the Users
persister, but no code in the repository ever calls it. -/
def userFactoryHookPersister : Persister :=
  { table := "Users" }

/-- The Factory._persister property: return the cached handle when the cache
is set (persister objects are truthy), otherwise call get_persister and cache
the result.  Returns the handle with the cache after the access.  Every
Factory starts with an empty cache, and because get_persister raises, no call
ever populates it: the cached branch is unreachable in this repository. -/
def factoryPersisterProp (cache : Option Persister) :
    Except PyErr (Persister × Option Persister) :=
  match cache with
  | some p => .ok (p, some p)
  | none =>
    match factoryGetPersister with
    | .ok p => .ok (p, some p)
    | .error e => .error e

/-- Factory.load_from_database: self._persister.get(search_data) first
acquires the persister through the _persister property — which in this
repository raises the SYSTEM ERROR before any read — and only then performs
the get and construct (with invalid_field_exceptions at its default True).
The backing table parameter feeds the acquired-persister continuation.
Returns the result, the factory cache after the call, and the store
traffic. -/
def load_from_database (klass : String) (defaultObj : Obj)
    (cache : Option Persister) (table : Dict → Option Dict)
    (searchData : Dict) :
    Except PyErr Obj × Option Persister × List StoreOp :=
  match factoryPersisterProp cache with
  | .error e => (.error e, cache, [])
  | .ok pc =>
    let r := persisterGet table searchData
    (match r.1 with
     | .ok item => construct klass defaultObj item true
     | .error e => .error e,
     pc.2, r.2)

/-- Factory.load_by_uuid: load_from_database with the primary-key dict. -/
def load_by_uuid (klass : String) (defaultObj : Obj)
    (cache : Option Persister) (table : Dict → Option Dict) (uuid : Value) :
    Except PyErr Obj × Option Persister × List StoreOp :=
  load_from_database klass defaultObj cache table [("uuid", uuid)]

/-- Factory.load_from_database_query, downstream of the persister query: its
behaviour as a function of the items the query returned. -/
def load_from_database_query (klass : String) (defaultObj : Obj)
    (items : List Dict) : Except PyErr Obj :=
  if items.length = 0 then .error (.recordNotFound "Record not found")
  else if items.length > 1 then .error (.multipleMatch "Multiple matches found")
  else construct klass defaultObj (items.headD []) true

/- ---------------------------------------------------------------------
Persister.save and Persister.query (src/models/Base.py, class Persister)
--------------------------------------------------------------------- -/

/-- Persister.get_persistable_object: the to_dict image with every pair whose
value equals the empty string removed. -/
def get_persistable_object (obj : Obj) : Dict :=
  (to_dict obj).filter (fun kv => kv.2 != Value.VStr "")

/-- Persister.save: validate through the validator of the object, then
put_item the persistable dict.  The write appears in the traffic list. -/
def persisterSave (reqs : FieldReqs) (obj : Obj) :
    Except PyErr Unit × List StoreOp :=
  match validate reqs (to_dict obj) with
  | .error e => (.error e, [])
  | .ok _ => (.ok (), [.writeItem (get_persistable_object obj)])

/-- The scan of Persister.query over the remaining search_data items.  The
local index_name is assigned only inside the pseudo-field branch, so it is
modelled as an Option: reading it while unassigned is UnboundLocalError.
The equality predicate is the ordered list of AND-ed (key, value) pairs. -/
def queryLoop : Option Value → Dict → Dict → Except PyErr (Value × Dict)
  | some idx, expr, [] => .ok (idx, expr)
  | none, _, [] => .error .unboundLocal
  | none, _, _ :: _ => .error .unboundLocal
  | some idx, expr, (key, v) :: rest =>
    queryLoop (some (if truthy idx then idx else .VStr key)) (expr ++ [(key, v)]) rest

/-- Persister.query.  The first component of the result is search_data after
the call: `del search_data['__index__']` mutates the dict of the caller in
place before anything can fail.  The backing table is a function from the
chosen index name and predicate pairs to an optional result set; a response
without an Items member raises the generic "Error searching" exception. -/
def persisterQuery (table : Value → Dict → Option (List Dict)) (sd : Dict) :
    Dict × Except PyErr (List Dict) :=
  let p : Option Value × Dict :=
    match lookupV sd "__index__" with
    | some v => (some v, delKey sd "__index__")
    | none => (none, sd)
  (p.2,
   match queryLoop p.1 [] p.2 with
   | .error e => .error e
   | .ok r =>
     match table r.1 r.2 with
     | some items => .ok items
     | none => .error (.genericError "Error searching"))

/- ---------------------------------------------------------------------
The Controller (src/controllers/CRUD.py)
--------------------------------------------------------------------- -/

/-- Controller.search: calls self.factory.get_persister() directly — the
static stub, not the cached _persister property — and queries it.  The cache
of the factory is neither read nor written. -/
def controllerSearch (cache : Option Persister)
    (table : Value → Dict → Option (List Dict)) (sd : Dict) :
    Except PyErr (List Dict) × Option Persister :=
  match factoryGetPersister with
  | .error e => (.error e, cache)
  | .ok _ => ((persisterQuery table sd).2, cache)

/-- Controller.set: construct a brand-new object from data (unknown keys
raise), validate it, return it.  No persister is touched: the traffic list is
empty. -/
def controllerSet (klass : String) (defaultObj : Obj) (reqs : FieldReqs)
    (data : Dict) : Except PyErr Obj × List StoreOp :=
  (match construct klass defaultObj data true with
   | .error e => .error e
   | .ok obj =>
     match validate reqs (to_dict obj) with
     | .error e => .error e
     | .ok _ => .ok obj,
   [])

/-- Controller.update: requires a present, truthy uuid in data, else
ClientErrorException; otherwise loads the record by uuid — an attempt that in
this repository raises the persister-acquisition SYSTEM ERROR before any
read — then applies set_from_data, validates, and returns the object.
Returns the result, the factory cache after the call, and the store
traffic. -/
def controllerUpdate (klass : String) (defaultObj : Obj) (reqs : FieldReqs)
    (cache : Option Persister) (table : Dict → Option Dict) (data : Dict) :
    Except PyErr Obj × Option Persister × List StoreOp :=
  match lookupV data "uuid" with
  | some u =>
    if truthy u then
      let r := load_by_uuid klass defaultObj cache table u
      (match r.1 with
       | .error e => .error e
       | .ok obj =>
         let obj2 := set_from_data obj data
         match validate reqs (to_dict obj2) with
         | .error e => .error e
         | .ok _ => .ok obj2,
       r.2.1, r.2.2)
    else (.error (.clientError "No uuid specified."), cache, [])
  | none => (.error (.clientError "No uuid specified."), cache, [])

/- ---------------------------------------------------------------------
Convenience accessors for stating properties about Except-valued results
--------------------------------------------------------------------- -/

/-- Whether an Except-valued construction succeeded. -/
def isOkE (r : Except PyErr Obj) : Bool :=
  match r with
  | .ok _ => true
  | .error _ => false

/-- The value of field k of a successful construction. -/
def okLookup (r : Except PyErr Obj) (k : String) : Option Value :=
  match r with
  | .ok o => lookupV o k
  | .error _ => none

/- ---------------------------------------------------------------------
Concrete instantiations used for evaluation: the SponsoringOrganizations
model exactly as defined (its __init__ declares no uuid attribute), plus a
small demo model that does carry a uuid attribute, as a record-backed object
would need. -/

/-- SponsoringOrganizations.__init__ attribute dict. -/
def spoDefault : Obj :=
  [("subdistrict_id", .VStr ""), ("name", .VStr "")]

/-- SponsoringOrganizations field requirements. -/
def spoReqs : FieldReqs :=
  [("uuid", FIELD_REQUIRED), ("subdistrict_id", FIELD_REQUIRED),
   ("name", FIELD_REQUIRED)]

/-- User.__init__ attribute dict. -/
def userDefault : Obj :=
  [("username", .VStr ""), ("password", .VStr ""), ("guardian_id", .VStr ""),
   ("roles", .VMap []), ("positions", .VList [])]

/-- A demo model class with a uuid attribute. -/
def demoDefault : Obj :=
  [("uuid", .VStr ""), ("subdistrict_id", .VStr ""), ("name", .VStr "")]

/-- Field requirements of the demo model (same shape as the concrete ones). -/
def demoReqs : FieldReqs :=
  [("uuid", FIELD_REQUIRED), ("subdistrict_id", FIELD_REQUIRED),
   ("name", FIELD_REQUIRED)]

/-- A one-record backing table keyed by uuid spo-1. -/
def demoTable : Dict → Option Dict := fun key =>
  if key = [("uuid", Value.VStr "spo-1")] then
    some [("uuid", .VStr "spo-1"), ("subdistrict_id", .VStr "sd-1"),
          ("name", .VStr "Old Name")]
  else none

/-- A demo object with every required field populated. -/
def demoSpoFull : Obj :=
  [("uuid", .VStr "spo-1"), ("subdistrict_id", .VStr "sd-1"),
   ("name", .VStr "Troop 7")]

/-- The same object with the required name field empty. -/
def demoSpoNoName : Obj :=
  [("uuid", .VStr "spo-1"), ("subdistrict_id", .VStr "sd-1"),
   ("name", .VStr "")]

/-- A stored record whose keys are all declared SponsoringOrganizations
fields. -/
def demoItem : Dict :=
  [("subdistrict_id", .VStr "sd-1"), ("name", .VStr "Troop 7")]

/-- Update input: a uuid, one changed field, and one unknown key. -/
def demoUpdateData : Dict :=
  [("uuid", .VStr "spo-1"), ("name", .VStr "New Name"),
   ("bogus", .VStr "zzz")]

/-- The object loaded from demoTable for uuid spo-1. -/
def demoBase : Obj :=
  [("uuid", .VStr "spo-1"), ("subdistrict_id", .VStr "sd-1"),
   ("name", .VStr "Old Name")]

/-- A valid object with one extra attribute holding the empty string. -/
def demoWithEmpty : Obj :=
  [("uuid", .VStr "spo-1"), ("subdistrict_id", .VStr "sd-1"),
   ("name", .VStr "Troop 7"), ("note", .VStr "")]

/- ---------------------------------------------------------------------
Helper lemmas on dicts
--------------------------------------------------------------------- -/

theorem lookupV_cons (k1 : String) (v1 : Value) (t : Dict) (k : String) :
    lookupV ((k1, v1) :: t) k = if k1 = k then some v1 else lookupV t k := by
  by_cases h : k1 = k
  · have hb : (k1 == k) = true := beq_iff_eq.mpr h
    simp [lookupV, List.find?, hb, h]
  · have hb : (k1 == k) = false := beq_eq_false_iff_ne.mpr h
    simp [lookupV, List.find?, hb, h]

theorem mem_dictKeys_of_mem {d : Dict} {k : String} {v : Value}
    (h : (k, v) ∈ d) : k ∈ dictKeys d :=
  List.mem_map_of_mem _ h

theorem lookupV_eq_none_of_not_mem {d : Dict} {k : String}
    (h : k ∉ dictKeys d) : lookupV d k = none := by
  induction d with
  | nil => rfl
  | cons kv t ih =>
    obtain ⟨k1, v1⟩ := kv
    simp only [dictKeys, List.map_cons, List.mem_cons, not_or] at h
    rw [lookupV_cons, if_neg (fun hh => h.1 hh.symm)]
    exact ih h.2

theorem lookupV_of_mem_nodup {d : Dict} {k : String} {v : Value}
    (hnd : (dictKeys d).Nodup) (h : (k, v) ∈ d) : lookupV d k = some v := by
  induction d with
  | nil => simp at h
  | cons kv t ih =>
    obtain ⟨k1, v1⟩ := kv
    simp only [dictKeys, List.map_cons, List.nodup_cons] at hnd
    rw [lookupV_cons]
    rcases List.mem_cons.mp h with h1 | h1
    · obtain ⟨rfl, rfl⟩ := Prod.mk.injEq .. ▸ h1
      simp
    · have hk : k1 ≠ k := by
        intro he
        subst he
        exact hnd.1 (mem_dictKeys_of_mem h1)
      rw [if_neg hk]
      exact ih hnd.2 h1

theorem hasKey_delKey (d : Dict) (k : String) :
    hasKey (delKey d k) k = false := by
  have : lookupV (delKey d k) k = none := by
    induction d with
    | nil => rfl
    | cons kv t ih =>
      obtain ⟨k1, v1⟩ := kv
      by_cases h : k1 = k
      · simpa [delKey, h] using ih
      · simpa [delKey, h, lookupV_cons] using ih
  simp [hasKey, this]

/- ---------------------------------------------------------------------
Helper lemmas on setAttr and the attribute views
--------------------------------------------------------------------- -/

theorem dictKeys_upd (obj : Obj) (k : String) (v : Value) :
    dictKeys (obj.map (fun kv => if kv.1 == k then (k, v) else kv)) =
      dictKeys obj := by
  induction obj with
  | nil => rfl
  | cons kv t ih =>
    obtain ⟨k1, v1⟩ := kv
    by_cases h : k1 = k
    · subst h
      simpa [dictKeys] using ih
    · simpa [dictKeys, h] using ih

theorem dictKeys_setAttr {obj : Obj} {k : String} (v : Value)
    (h : (dictKeys obj).contains k = true) :
    dictKeys (setAttr obj k v) = dictKeys obj := by
  unfold setAttr
  rw [if_pos h]
  exact dictKeys_upd obj k v

theorem lookupV_setAttr_same {obj : Obj} {k : String} (v : Value)
    (h : (dictKeys obj).contains k = true) :
    lookupV (setAttr obj k v) k = some v := by
  unfold setAttr
  rw [if_pos h]
  have hm : k ∈ dictKeys obj := by simpa using h
  clear h
  induction obj with
  | nil => simp [dictKeys] at hm
  | cons kv t ih =>
    obtain ⟨k1, v1⟩ := kv
    by_cases hk : k1 = k
    · subst hk
      simp [lookupV_cons]
    · simp only [dictKeys, List.map_cons, List.mem_cons] at hm
      have hm2 : k ∈ dictKeys t := by
        rcases hm with hm | hm
        · exact absurd hm.symm hk
        · exact hm
      simpa [List.map_cons, hk, lookupV_cons] using ih hm2

theorem lookupV_upd_other (obj : Obj) (k : String) (v : Value) {k2 : String}
    (hne : k2 ≠ k) :
    lookupV (obj.map (fun kv => if kv.1 == k then (k, v) else kv)) k2 =
      lookupV obj k2 := by
  induction obj with
  | nil => rfl
  | cons kv t ih =>
    obtain ⟨k1, v1⟩ := kv
    rw [List.map_cons]
    by_cases hk : k1 = k
    · have hb : (k1 == k) = true := beq_iff_eq.mpr hk
      simp only [hb, if_true]
      rw [lookupV_cons, lookupV_cons,
        if_neg (fun hh : k = k2 => hne hh.symm),
        if_neg (fun hh : k1 = k2 => hne (hk ▸ hh).symm)]
      exact ih
    · have hb : (k1 == k) = false := beq_eq_false_iff_ne.mpr hk
      simp only [hb, Bool.false_eq_true, if_false]
      rw [lookupV_cons, lookupV_cons]
      by_cases h12 : k1 = k2
      · rw [if_pos h12, if_pos h12]
      · rw [if_neg h12, if_neg h12]
        exact ih

theorem lookupV_append_single (obj : Obj) (k : String) (v : Value) {k2 : String}
    (hne : k2 ≠ k) :
    lookupV (obj ++ [(k, v)]) k2 = lookupV obj k2 := by
  induction obj with
  | nil =>
    rw [List.nil_append, lookupV_cons, if_neg (fun hh : k = k2 => hne hh.symm)]
  | cons kv t ih =>
    obtain ⟨k1, v1⟩ := kv
    rw [List.cons_append, lookupV_cons, lookupV_cons]
    by_cases hk : k1 = k2
    · rw [if_pos hk, if_pos hk]
    · rw [if_neg hk, if_neg hk]
      exact ih

theorem lookupV_setAttr_other {obj : Obj} (k : String) (v : Value) {k2 : String}
    (hne : k2 ≠ k) :
    lookupV (setAttr obj k v) k2 = lookupV obj k2 := by
  unfold setAttr
  by_cases h : (dictKeys obj).contains k = true
  · rw [if_pos h]
    exact lookupV_upd_other obj k v hne
  · rw [if_neg h]
    exact lookupV_append_single obj k v hne

theorem stripU_eq_self {k : String} (h : leadUnderscore k = false) :
    stripU k = k := by
  unfold leadUnderscore at h
  unfold stripU
  cases hd : k.data with
  | nil => rfl
  | cons c rest =>
    rw [hd] at h
    simp only at h
    show (if c = '_' then String.mk rest else k) = k
    rw [if_neg (of_decide_eq_false h)]

theorem key_no_underscore {d : Dict} (h : noUnderscoreKeys d = true) {k : String}
    (hm : k ∈ dictKeys d) : leadUnderscore k = false := by
  have h2 := List.all_eq_true.mp h k hm
  simpa using h2

theorem fields_eq_dictKeys {obj : Obj} (h : noUnderscoreKeys obj = true) :
    fields obj = dictKeys obj := by
  unfold fields dictKeys
  apply List.map_congr_left
  intro kv hkv
  exact stripU_eq_self (key_no_underscore h (mem_dictKeys_of_mem hkv))

theorem to_dict_eq_self {obj : Obj} (h : noUnderscoreKeys obj = true) :
    to_dict obj = obj := by
  unfold to_dict
  conv_rhs => rw [← List.map_id obj]
  apply List.map_congr_left
  intro kv hkv
  obtain ⟨k, v⟩ := kv
  simp [stripU_eq_self (key_no_underscore h (mem_dictKeys_of_mem hkv))]

theorem noUnderscoreKeys_of_keys_eq {d1 d2 : Dict}
    (h : dictKeys d1 = dictKeys d2) (hn : noUnderscoreKeys d2 = true) :
    noUnderscoreKeys d1 = true := by
  unfold noUnderscoreKeys at hn ⊢
  rw [h]
  exact hn

/- ---------------------------------------------------------------------
Extensionality of dicts with equal key sequences
--------------------------------------------------------------------- -/

theorem dict_ext : ∀ (d1 d2 : Dict), dictKeys d1 = dictKeys d2 →
    (dictKeys d1).Nodup → (∀ k, lookupV d1 k = lookupV d2 k) → d1 = d2 := by
  intro d1
  induction d1 with
  | nil =>
    intro d2 hk _ _
    cases d2 with
    | nil => rfl
    | cons kv t => simp [dictKeys] at hk
  | cons kv t1 ih =>
    obtain ⟨k, v⟩ := kv
    intro d2 hk hnd hl
    cases d2 with
    | nil => simp [dictKeys] at hk
    | cons kv2 t2 =>
      obtain ⟨k2, v2⟩ := kv2
      simp only [dictKeys, List.map_cons, List.cons.injEq] at hk
      obtain ⟨hkk, hkt⟩ := hk
      subst hkk
      simp only [dictKeys, List.map_cons, List.nodup_cons] at hnd
      have hv : v = v2 := by
        have := hl k
        simpa [lookupV_cons] using this
      subst hv
      have hkt2 : dictKeys t1 = dictKeys t2 := hkt
      congr 1
      apply ih t2 hkt2 hnd.2
      intro k3
      by_cases h3 : k3 = k
      · subst h3
        rw [lookupV_eq_none_of_not_mem hnd.1,
          lookupV_eq_none_of_not_mem (hkt2 ▸ hnd.1)]
      · have hne : k ≠ k3 := fun hh => h3 hh.symm
        have h4 := hl k3
        rw [lookupV_cons, lookupV_cons, if_neg hne, if_neg hne] at h4
        exact h4

/- ---------------------------------------------------------------------
Core correctness of the construct loop
--------------------------------------------------------------------- -/

/-- When every data key either names a declared field or
invalid_field_exceptions is off, the loop of Factory.construct succeeds,
preserves the attribute keys, and the resulting attribute values are the data
values on declared keys and the previous values everywhere else. -/
theorem constructLoop_ok (klass : String) (ife : Bool) :
    ∀ (data : Dict) (obj : Obj),
      noUnderscoreKeys obj = true →
      (dictKeys data).Nodup →
      (∀ k, k ∈ dictKeys data → (dictKeys obj).contains k = true ∨ ife = false) →
      ∃ r, constructLoop klass ife obj data = .ok r ∧
        dictKeys r = dictKeys obj ∧ noUnderscoreKeys r = true ∧
        ∀ k2, lookupV r k2 =
          (match lookupV data k2 with
           | some v => if (dictKeys obj).contains k2 = true then some v
                       else lookupV obj k2
           | none => lookupV obj k2) := by
  intro data
  induction data with
  | nil =>
    intro obj hno _ _
    exact ⟨obj, rfl, rfl, hno, fun k2 => rfl⟩
  | cons kv rest ih =>
    obtain ⟨key, v⟩ := kv
    intro obj hno hnd hkeys
    simp only [dictKeys, List.map_cons, List.nodup_cons] at hnd
    have hndr : (dictKeys rest).Nodup := hnd.2
    have hkrest : key ∉ dictKeys rest := hnd.1
    have hfields : fields obj = dictKeys obj := fields_eq_dictKeys hno
    by_cases hc : (dictKeys obj).contains key = true
    · have hko : dictKeys (setAttr obj key v) = dictKeys obj :=
        dictKeys_setAttr v hc
      have hno2 : noUnderscoreKeys (setAttr obj key v) = true :=
        noUnderscoreKeys_of_keys_eq hko hno
      have hkeys2 : ∀ k, k ∈ dictKeys rest →
          (dictKeys (setAttr obj key v)).contains k = true ∨ ife = false := by
        intro k hk
        rw [hko]
        exact hkeys k (show k ∈ key :: dictKeys rest from List.mem_cons_of_mem _ hk)
      obtain ⟨r, hr, hkr, hnor, hlook⟩ := ih (setAttr obj key v) hno2 hndr hkeys2
      refine ⟨r, ?_, hkr.trans hko, hnor, ?_⟩
      · simp only [constructLoop]
        rw [hfields, if_pos hc]
        exact hr
      · intro k2
        by_cases hk2 : k2 = key
        · subst hk2
          have hdv : lookupV ((k2, v) :: rest) k2 = some v := by
            rw [lookupV_cons, if_pos rfl]
          simp only [hdv]
          rw [if_pos hc]
          have h0 := hlook k2
          simp only [lookupV_eq_none_of_not_mem hkrest] at h0
          rw [h0]
          exact lookupV_setAttr_same v hc
        · have hdv : lookupV ((key, v) :: rest) k2 = lookupV rest k2 := by
            rw [lookupV_cons, if_neg (fun hh : key = k2 => hk2 hh.symm)]
          simp only [hdv]
          have h0 := hlook k2
          cases hl : lookupV rest k2 with
          | some w =>
            simp only [hl] at h0
            rw [hko] at h0
            show lookupV r k2 =
              if (dictKeys obj).contains k2 = true then some w else lookupV obj k2
            rw [h0]
            by_cases hc2 : (dictKeys obj).contains k2 = true
            · rw [if_pos hc2, if_pos hc2]
            · rw [if_neg hc2, if_neg hc2]
              exact lookupV_setAttr_other key v hk2
          | none =>
            simp only [hl] at h0
            show lookupV r k2 = lookupV obj k2
            rw [h0]
            exact lookupV_setAttr_other key v hk2
    · have hife : ife = false := by
        rcases hkeys key (by simp [dictKeys]) with h | h
        · exact absurd h hc
        · exact h
      subst hife
      obtain ⟨r, hr, hkr, hnor, hlook⟩ := ih obj hno hndr (fun k _ => Or.inr rfl)
      refine ⟨r, ?_, hkr, hnor, ?_⟩
      · simp only [constructLoop]
        rw [hfields]
        rw [if_neg hc, if_neg (by simp)]
        exact hr
      · intro k2
        by_cases hk2 : k2 = key
        · subst hk2
          have hdv : lookupV ((k2, v) :: rest) k2 = some v := by
            rw [lookupV_cons, if_pos rfl]
          simp only [hdv]
          rw [if_neg hc]
          have h0 := hlook k2
          simp only [lookupV_eq_none_of_not_mem hkrest] at h0
          exact h0
        · have hdv : lookupV ((key, v) :: rest) k2 = lookupV rest k2 := by
            rw [lookupV_cons, if_neg (fun hh : key = k2 => hk2 hh.symm)]
          simp only [hdv]
          exact hlook k2

/- ---------------------------------------------------------------------
Lemmas on set_from_data
--------------------------------------------------------------------- -/

theorem dictKeys_set_from_data (obj : Obj) (data : Dict) :
    dictKeys (set_from_data obj data) = dictKeys obj := by
  unfold set_from_data dictKeys
  rw [List.map_map]
  apply List.map_congr_left
  intro kv _
  cases hl : lookupV data kv.1 <;> simp [Function.comp, hl]

/-- Every attribute of the set_from_data result carries the data value when
its key occurs in data, and is an unchanged attribute of the object
otherwise. -/
theorem set_from_data_mem {obj : Obj} {data : Dict} {k : String} {v : Value}
    (h : (k, v) ∈ set_from_data obj data) :
    (match lookupV data k with
     | some w => v = w
     | none => (k, v) ∈ obj) := by
  unfold set_from_data at h
  obtain ⟨kv, hkv, heq⟩ := List.mem_map.mp h
  obtain ⟨k1, v1⟩ := kv
  cases hl : lookupV data k1 with
  | some w =>
    rw [hl] at heq
    injection heq with hk hv
    subst hk
    subst hv
    simp only [hl]
  | none =>
    rw [hl] at heq
    injection heq with hk hv
    subst hk
    subst hv
    simp only [hl]
    exact hkv

/- ---------------------------------------------------------------------
Lemmas on the validator
--------------------------------------------------------------------- -/

/-- The collected required-field errors are exactly one message per required
field that fails the presence test, in requirement order. -/
theorem validateRequiredFields_errors (d : Dict) :
    ∀ reqs : FieldReqs,
      (validateRequiredFields reqs d).2 =
        (reqs.filter
          (fun kr => kr.2 == FIELD_REQUIRED && !(presentTruthy d kr.1))).map
          (fun kr => missingMsg kr.1) := by
  intro reqs
  induction reqs with
  | nil => rfl
  | cons kr rest ih =>
    obtain ⟨key, value⟩ := kr
    by_cases hreq : (value == FIELD_REQUIRED) = true
    · by_cases hp : presentTruthy d key = true
      · simp [validateRequiredFields, hreq, hp, List.filter_cons, ih]
      · simp [validateRequiredFields, hreq, hp, List.filter_cons, ih]
    · simp [validateRequiredFields, hreq, List.filter_cons, ih]

/- ---------------------------------------------------------------------
Small membership helpers
--------------------------------------------------------------------- -/

theorem contains_of_mem {l : List String} {a : String} (h : a ∈ l) :
    l.contains a = true := by
  simp [h]

theorem lookupV_isSome_of_mem_keys {d : Dict} {k : String}
    (h : k ∈ dictKeys d) : (lookupV d k).isSome = true := by
  induction d with
  | nil => simp [dictKeys] at h
  | cons kv t ih =>
    obtain ⟨k1, v1⟩ := kv
    rw [lookupV_cons]
    by_cases hk : k1 = k
    · simp [hk]
    · simp only [if_neg hk]
      apply ih
      simp only [dictKeys, List.map_cons, List.mem_cons] at h
      rcases h with h | h
      · exact absurd h.symm hk
      · exact h

theorem mem_keys_of_lookupV_some {d : Dict} {k : String} {v : Value}
    (h : lookupV d k = some v) : k ∈ dictKeys d := by
  by_contra hm
  rw [lookupV_eq_none_of_not_mem hm] at h
  cases h

/-- Running the construct loop with exceptions on over a prefix of declared
keys followed by an undeclared one raises the unknown-field error for that
first undeclared key. -/
theorem constructLoop_first_unknown (klass : String) (bad : String) (v : Value)
    (rest : Dict) :
    ∀ (pre : Dict) (obj : Obj),
      noUnderscoreKeys obj = true →
      (∀ k ∈ dictKeys pre, (dictKeys obj).contains k = true) →
      (dictKeys obj).contains bad = false →
      constructLoop klass true obj (pre ++ (bad, v) :: rest) =
        .error (.genericError (unknownFieldMsg klass bad)) := by
  intro pre
  induction pre with
  | nil =>
    intro obj hno _ hbad
    rw [List.nil_append]
    simp only [constructLoop]
    rw [fields_eq_dictKeys hno]
    rw [if_neg (fun hh => by rw [hbad] at hh; exact Bool.noConfusion hh)]
    simp
  | cons kv t ih =>
    intro obj hno hpre hbad
    obtain ⟨k1, v1⟩ := kv
    rw [List.cons_append]
    simp only [constructLoop]
    rw [fields_eq_dictKeys hno]
    have hc : (dictKeys obj).contains k1 = true :=
      hpre k1 (show k1 ∈ k1 :: dictKeys t from List.mem_cons_self _ _)
    rw [if_pos hc]
    have hko := dictKeys_setAttr v1 hc
    exact ih (setAttr obj k1 v1) (noUnderscoreKeys_of_keys_eq hko hno)
      (fun k hk => by rw [hko]; exact hpre k (List.mem_cons_of_mem _ hk))
      (by rw [hko]; exact hbad)

/- ---------------------------------------------------------------------
The claims
--------------------------------------------------------------------- -/

/-- C3: for every object whose required fields (per the field requirements of
its validator) are all present with truthy values, validate succeeds; when
some required field is absent from to_dict or has a falsy value (empty
string, zero, empty collection all count as missing), validate raises
InvalidObject carrying only the first collected error message, which names
the first missing required field in requirement order. -/
theorem c3_validate_required_fields (reqs : FieldReqs) (obj : Obj) :
    ((∀ kr ∈ reqs, kr.2 = FIELD_REQUIRED →
        presentTruthy (to_dict obj) kr.1 = true) →
      validate reqs (to_dict obj) = .ok ())
    ∧ (∀ k r rest,
        reqs.filter (fun kr => kr.2 == FIELD_REQUIRED &&
          !(presentTruthy (to_dict obj) kr.1)) = (k, r) :: rest →
        validate reqs (to_dict obj) =
          .error (.invalidObject (missingMsg k))) := by
  constructor
  · intro hall
    have hf : reqs.filter (fun kr => kr.2 == FIELD_REQUIRED &&
        !(presentTruthy (to_dict obj) kr.1)) = [] := by
      rw [List.filter_eq_nil_iff]
      intro kr hkr
      by_cases hr : kr.2 = FIELD_REQUIRED
      · have hp := hall kr hkr hr
        simp [hp]
      · simp [hr]
    unfold validate get_validation_errors
    rw [validateRequiredFields_errors, hf]
    rfl
  · intro k r rest hf
    unfold validate get_validation_errors
    rw [validateRequiredFields_errors, hf]
    rfl

/-- C3 witness: the SponsoringOrganizations requirements accept a fully
populated object and reject one whose name is empty, naming name in the
error. -/
theorem c3_witness :
    validate spoReqs (to_dict demoSpoFull) = .ok ()
    ∧ validate spoReqs (to_dict demoSpoNoName) =
      .error (.invalidObject "Missing required field \"name\"") := by
  constructor
  · refine (c3_validate_required_fields spoReqs demoSpoFull).1 ?_
    intro kr hkr hreq
    simp only [spoReqs, List.mem_cons, List.not_mem_nil, or_false] at hkr
    rcases hkr with rfl | rfl | rfl <;> rfl
  · exact (c3_validate_required_fields spoReqs demoSpoNoName).2
      "name" FIELD_REQUIRED [] (by rfl)

/-- C6: Persister.save validates first — a validation error aborts with no
write — and on success the single written item is to_dict with every
empty-string attribute removed: nothing holding the empty string is ever
written, and every other attribute is written unchanged. -/
theorem c6_save_strips_empty_strings (reqs : FieldReqs) (obj : Obj) :
    (∀ e, validate reqs (to_dict obj) = .error e →
      persisterSave reqs obj = (.error e, []))
    ∧ (validate reqs (to_dict obj) = .ok () →
      persisterSave reqs obj =
        (.ok (), [.writeItem ((to_dict obj).filter
          (fun kv => kv.2 != Value.VStr ""))]))
    ∧ (∀ k v, (k, v) ∈ get_persistable_object obj →
        v ≠ Value.VStr "" ∧ (k, v) ∈ to_dict obj)
    ∧ (∀ k v, (k, v) ∈ to_dict obj → v ≠ Value.VStr "" →
        (k, v) ∈ get_persistable_object obj) := by
  refine ⟨?_, ?_, ?_, ?_⟩
  · intro e he
    unfold persisterSave
    rw [he]
  · intro h
    unfold persisterSave
    rw [h]
    rfl
  · intro k v h
    have h2 := List.mem_filter.mp h
    refine ⟨?_, h2.1⟩
    simpa using h2.2
  · intro k v h hne
    exact List.mem_filter.mpr ⟨h, by simpa using hne⟩

/-- C6 witness: saving a valid object with one empty-string attribute writes
a single item that omits exactly that attribute. -/
theorem c6_witness :
    persisterSave spoReqs demoWithEmpty =
      (.ok (), [.writeItem [("uuid", Value.VStr "spo-1"),
        ("subdistrict_id", Value.VStr "sd-1"),
        ("name", Value.VStr "Troop 7")]]) :=
  (c6_save_strips_empty_strings spoReqs demoWithEmpty).2.1 (by rfl)

/-- C7: for every object of a concrete class whose attributes are exactly
the declared fields of the class, construct applied to its to_dict output
reproduces an equal object, with invalid_field_exceptions either true or
false (there are no extraneous keys). -/
theorem c7_construct_to_dict_roundtrip (klass : String) (defaultObj o : Obj)
    (hno : noUnderscoreKeys o = true)
    (hkeys : dictKeys o = dictKeys defaultObj)
    (hnd : (dictKeys o).Nodup) :
    ∀ ife, construct klass defaultObj (to_dict o) ife = .ok o := by
  intro ife
  have hnod : noUnderscoreKeys defaultObj = true :=
    noUnderscoreKeys_of_keys_eq hkeys.symm hno
  rw [to_dict_eq_self hno]
  unfold construct
  obtain ⟨r, hr, hkr, _, hlook⟩ := constructLoop_ok klass ife o defaultObj hnod
    hnd (fun k hk => Or.inl (contains_of_mem (hkeys ▸ hk)))
  rw [hr]
  congr 1
  apply dict_ext r o (hkr.trans hkeys.symm)
    (by rw [hkr.trans hkeys.symm]; exact hnd)
  intro k
  have h0 := hlook k
  cases hl : lookupV o k with
  | some v =>
    simp only [hl] at h0
    have hm : k ∈ dictKeys o := mem_keys_of_lookupV_some hl
    rw [if_pos (contains_of_mem (hkeys ▸ hm))] at h0
    rw [h0]
  | none =>
    simp only [hl] at h0
    have hm : k ∉ dictKeys defaultObj := by
      intro hmm
      have hs := lookupV_isSome_of_mem_keys (hkeys.symm ▸ hmm)
      rw [hl] at hs
      cases hs
    rw [h0, lookupV_eq_none_of_not_mem hm]

/-- C7 witness: the round trip on a concrete fully populated object. -/
theorem c7_witness :
    construct "Demo" demoDefault (to_dict demoSpoFull) true = .ok demoSpoFull :=
  c7_construct_to_dict_roundtrip "Demo" demoDefault demoSpoFull
    (by rfl) (by rfl) (by decide) true

/-- C8: construct on data containing a key that is not a declared field of
the concrete class: with invalid_field_exceptions true (the default) it
raises the generic error naming the class and the first such key; with it
false the unknown keys are ignored and an object is produced whose declared
fields named in data carry the data values. -/
theorem c8_construct_unknown_field (klass : String) (defaultObj : Obj)
    (data pre rest : Dict) (bad : String) (v : Value) :
    (noUnderscoreKeys defaultObj = true →
      data = pre ++ (bad, v) :: rest →
      (∀ k ∈ dictKeys pre, (dictKeys defaultObj).contains k = true) →
      (dictKeys defaultObj).contains bad = false →
      construct klass defaultObj data true =
        .error (.genericError (unknownFieldMsg klass bad)))
    ∧ (noUnderscoreKeys defaultObj = true →
      (dictKeys data).Nodup →
      isOkE (construct klass defaultObj data false) = true
      ∧ ∀ k w, lookupV data k = some w →
          (dictKeys defaultObj).contains k = true →
          okLookup (construct klass defaultObj data false) k = some w) := by
  constructor
  · intro hno hdata hpre hbad
    subst hdata
    exact constructLoop_first_unknown klass bad v rest pre defaultObj hno hpre hbad
  · intro hno hnd
    obtain ⟨r, hr, _, _, hlook⟩ := constructLoop_ok klass false data defaultObj
      hno hnd (fun k _ => Or.inr rfl)
    unfold construct
    rw [hr]
    refine ⟨rfl, ?_⟩
    intro k w hlk hc
    have h0 := hlook k
    simp only [hlk] at h0
    rw [if_pos hc] at h0
    exact h0

/-- C8 witness: constructing SponsoringOrganizations data with the unknown
key bogus raises with exceptions on and ignores it with exceptions off. -/
theorem c8_witness :
    construct "SponsoringOrganizations" spoDefault
      [("name", Value.VStr "X"), ("bogus", Value.VStr "B")] true =
      .error (.genericError "Unknown \"SponsoringOrganizations\" field \"bogus\"")
    ∧ okLookup (construct "SponsoringOrganizations" spoDefault
      [("name", Value.VStr "X"), ("bogus", Value.VStr "B")] false) "name" =
      some (Value.VStr "X") := by
  have h := c8_construct_unknown_field "SponsoringOrganizations" spoDefault
    [("name", Value.VStr "X"), ("bogus", Value.VStr "B")]
    [("name", Value.VStr "X")] [] "bogus" (Value.VStr "B")
  exact ⟨h.1 (by rfl) rfl (by decide) (by rfl),
    (h.2 (by rfl) (by decide)).2 "name" (Value.VStr "X") (by rfl) (by rfl)⟩

/-- C4: evaluation of load_from_database_query at the query results the
claim describes.  Zero items raise RecordNotFound and two raise
MultipleMatch as claimed; but a sole matching record carrying the primary
key uuid — as every stored record does, uuid being the primary key and
required by the validator of the class — is not returned as a constructed
object: construct raises the unknown-field error for uuid, because no
concrete __init__ declares a uuid attribute. -/
theorem c4_sole_match_unknown_uuid_field :
    load_from_database_query "SponsoringOrganizations" spoDefault [] =
      .error (.recordNotFound "Record not found")
    ∧ load_from_database_query "SponsoringOrganizations" spoDefault
        [demoItem, demoItem] = .error (.multipleMatch "Multiple matches found")
    ∧ load_from_database_query "SponsoringOrganizations" spoDefault
        [demoBase] =
      .error (.genericError
        "Unknown \"SponsoringOrganizations\" field \"uuid\"") :=
  ⟨rfl, rfl, rfl⟩

/-- C5: evaluation of Controller.update at the failing input, on the
SponsoringOrganizations wiring with a fresh factory (the only reachable
cache state).  The ClientError half of the claim holds: without a uuid key,
and likewise with a falsy uuid value, the call is rejected with
ClientError("No uuid specified.").  With a present, non-empty uuid, update
never loads-and-merges: the load raises the persister-acquisition SYSTEM
ERROR before any read, so the claimed load, set_from_data overwrite and
validation are unreachable. -/
theorem c5_update_raises_before_load :
    controllerUpdate "SponsoringOrganizations" spoDefault spoReqs none
        demoTable [("uuid", Value.VStr "spo-1"), ("name", Value.VStr "New Name")] =
      (.error (.genericError "SYSTEM ERROR: persister not defined."), none,
        ([] : List StoreOp))
    ∧ controllerUpdate "SponsoringOrganizations" spoDefault spoReqs none
        demoTable [("name", Value.VStr "New Name")] =
      (.error (.clientError "No uuid specified."), none, ([] : List StoreOp))
    ∧ controllerUpdate "SponsoringOrganizations" spoDefault spoReqs none
        demoTable [("uuid", Value.VStr ""), ("name", Value.VStr "New Name")] =
      (.error (.clientError "No uuid specified."), none, ([] : List StoreOp)) :=
  ⟨rfl, rfl, rfl⟩

/-- C1 counterexample: at concrete inputs, a Controller.set call performs
zero backing-store operations — in particular not the single wholesale-
replacing write the claim asserts — and a Controller.update call with a
present, non-empty uuid also performs zero store operations: the persister
acquisition raises the SYSTEM ERROR before the read, so there is no
read-then-validate-then-write sequence. -/
theorem c1_counterexample :
    (controllerSet "SponsoringOrganizations" spoDefault spoReqs
      [("subdistrict_id", Value.VStr "sd-1"),
       ("name", Value.VStr "Troop 7")]).2 = []
    ∧ controllerUpdate "SponsoringOrganizations" spoDefault spoReqs none
        demoTable
        [("uuid", Value.VStr "spo-1"), ("subdistrict_id", Value.VStr "sd-1"),
         ("name", Value.VStr "Troop 7")] =
      (.error (.genericError "SYSTEM ERROR: persister not defined."), none,
        ([] : List StoreOp)) :=
  ⟨rfl, rfl⟩

/-- C1 (amended): no Controller call performs any backing-store round trip.
update with a present, truthy uuid attempts the read, but on a fresh factory
cache — the only state reachable in this repository, get_persister being the
raising base stub — the persister acquisition raises the SYSTEM ERROR first,
so the call fails with empty store traffic and no write; set never touches
the persister at all: it constructs and validates the object and returns it,
with empty store traffic. -/
theorem c1_no_store_round_trips (klass : String) (defaultObj : Obj)
    (reqs : FieldReqs) (table : Dict → Option Dict) (data : Dict) (u : Value)
    (hu : lookupV data "uuid" = some u) (ht : truthy u = true) :
    controllerUpdate klass defaultObj reqs none table data =
      (.error (.genericError "SYSTEM ERROR: persister not defined."), none,
        ([] : List StoreOp))
    ∧ (controllerSet klass defaultObj reqs data).2 = ([] : List StoreOp) := by
  constructor
  · unfold controllerUpdate
    rw [hu]
    simp only [ht, if_true, load_by_uuid, load_from_database,
      factoryPersisterProp, factoryGetPersister]
  · rfl

/-- C1 witness: the amended statement at the demo inputs. -/
theorem c1_witness :
    controllerUpdate "Demo" demoDefault demoReqs none demoTable
        demoUpdateData =
      (.error (.genericError "SYSTEM ERROR: persister not defined."), none,
        ([] : List StoreOp))
    ∧ (controllerSet "Demo" demoDefault demoReqs demoUpdateData).2 =
      ([] : List StoreOp) :=
  c1_no_store_round_trips "Demo" demoDefault demoReqs demoTable
    demoUpdateData (Value.VStr "spo-1") (by rfl) (by rfl)

/-- C2: evaluation of Persister.query at concrete inputs.  Without the
pseudo-field the local index_name is never assigned, so the first read of it
raises UnboundLocalError instead of using the first remaining key as the
index name; with the pseudo-field present it is removed from the dict, its
value alone selects the index, and the predicate is the equality conjunction
of the remaining pairs. -/
theorem c2_query_unbound_index_local :
    persisterQuery (fun _ _ => some []) [("name", Value.VStr "X")] =
      ([("name", Value.VStr "X")], .error .unboundLocal)
    ∧ persisterQuery
        (fun idx expr =>
          if idx = Value.VStr "by_name" ∧ expr = [("name", Value.VStr "X")] then
            some [[("uuid", Value.VStr "u-1"), ("name", Value.VStr "X")]]
          else none)
        [("__index__", Value.VStr "by_name"), ("name", Value.VStr "X")] =
      ([("name", Value.VStr "X")],
        .ok [[("uuid", Value.VStr "u-1"), ("name", Value.VStr "X")]]) :=
  ⟨rfl, rfl⟩

/-- C9: evaluation of the persister acquisition at the concrete wiring of
the repository.  The _persister property on an empty cache calls the static
Base.Factory.get_persister, which raises the SYSTEM ERROR — the concrete
factories supply their hook under the name _get_persister, which nothing
calls — so no persister is ever constructed or cached; and Controller.search
calls get_persister() directly, failing identically and leaving even a
populated cache untouched, rather than reusing the cached handle. -/
theorem c9_persister_never_constructed :
    factoryPersisterProp none =
      .error (.genericError "SYSTEM ERROR: persister not defined.")
    ∧ controllerSearch (some { table := "Users" }) (fun _ _ => some [])
        [("name", Value.VStr "X")] =
      (.error (.genericError "SYSTEM ERROR: persister not defined."),
        some { table := "Users" })
    ∧ userFactoryHookPersister = { table := "Users" } :=
  ⟨rfl, rfl, rfl⟩

/-- C10: for every call to Persister.query whose search_data contains the
pseudo-field, the dict handed back to the caller is search_data with that
key deleted — the deletion happens in place before anything can fail, so it
is observable whether the call returns or raises. -/
theorem c10_query_deletes_index_key
    (table : Value → Dict → Option (List Dict)) (sd : Dict)
    (h : hasKey sd "__index__" = true) :
    (persisterQuery table sd).1 = delKey sd "__index__"
    ∧ hasKey (persisterQuery table sd).1 "__index__" = false := by
  have h1 : (persisterQuery table sd).1 = delKey sd "__index__" := by
    unfold persisterQuery
    cases hl : lookupV sd "__index__" with
    | some v => simp only [hl]
    | none =>
      exfalso
      unfold hasKey at h
      rw [hl] at h
      simp at h
  exact ⟨h1, by rw [h1]; exact hasKey_delKey sd "__index__"⟩

/-- C10 witness: the pseudo-field is gone from the dict of the caller even
when the call raises the Error searching exception. -/
theorem c10_witness :
    (persisterQuery (fun _ _ => none)
      [("__index__", Value.VStr "by_name"), ("name", Value.VStr "X")]).1 =
      delKey [("__index__", Value.VStr "by_name"),
        ("name", Value.VStr "X")] "__index__"
    ∧ hasKey (persisterQuery (fun _ _ => none)
      [("__index__", Value.VStr "by_name"),
        ("name", Value.VStr "X")]).1 "__index__" = false :=
  c10_query_deletes_index_key (fun _ _ => none)
    [("__index__", Value.VStr "by_name"), ("name", Value.VStr "X")] (by rfl)

end Paperless
